import Mathlib

/-!
Shallow embedding of `openprocurement/bridge/basic/databridge.py`
(`BasicDataBridge`): client-health data model, the performance watcher
(`_get_average_requests_duration`, `_calculate_st_dev`, `_mark_bad_clients`,
`perfomance_watcher`), the queues controller decision and fill-percentage
formulas (`queues_controller`), API-client creation (`create_api_client`)
and the startup configuration validation (`BasicDataBridge.__init__`).

Python floats are modelled by exact rationals; the one genuinely real-valued
operation, `math.sqrt` in `_calculate_st_dev`, goes through `Real.sqrt` and
an ℝ-valued rounding back onto the 3-decimal grid.  Python's `round(x, n)`
(`round half to even`) is modelled by `round` (half away from zero upwards);
no statement or concrete input below sits on a tie, so the difference is
unobservable here.  Timestamps (`datetime` values) are rationals ordered as
time; `datetime.now()` is passed in as the parameter `now` of a tick.
-/

namespace DataBridge

/-- Python `round(x, 3)` on the rational model. -/
def round3 (x : ℚ) : ℚ := (round (x * 1000) : ℚ) / 1000

/-- Python `round(x, 2)` on the rational model. -/
def round2 (x : ℚ) : ℚ := (round (x * 100) : ℚ) / 100

/-- Rounding a real to the 3-decimal rational grid: the result of Python
`round(x, 3)` where `x` came out of `math.sqrt`. -/
noncomputable def round3R (x : ℝ) : ℚ := (round (x * 1000) : ℚ) / 1000

/-- One entry of `self.api_clients_info` (the client-health map), as created
in `create_api_client` (databridge.py lines 140-145).  The `grown` key is
absent at creation and only ever read through `info.get('grown', False)`,
which the default value `false` models. -/
structure ClientInfo where
  drop_cookies : Bool
  request_durations : List (ℚ × ℚ)
  request_interval : ℚ
  avg_duration : ℚ
  grown : Bool := false
deriving DecidableEq, Repr

/-- The health map `self.api_clients_info`: insertion-ordered dict keyed by
client id. -/
abbrev HealthMap := List (String × ClientInfo)

/-- `min(info['request_durations'].keys())`, used on a nonempty window. -/
def minKey (l : List (ℚ × ℚ)) : ℚ :=
  match l with
  | [] => 0
  | x :: xs => xs.foldl (fun m kv => min m kv.1) x.1

/-- `sum(info['request_durations'].values())`. -/
def sumVals (l : List (ℚ × ℚ)) : ℚ := (l.map Prod.snd).sum

/-- `min(values)` of a nonempty list (0 on `[]`, matching the guarded use). -/
def listMin (l : List ℚ) : ℚ :=
  match l with
  | [] => 0
  | x :: xs => xs.foldl min x

/-- `max(values)` of a nonempty list (0 on `[]`, matching the guarded use). -/
def listMax (l : List ℚ) : ℚ :=
  match l with
  | [] => 0
  | x :: xs => xs.foldl max x

/-- The per-client mutation performed by one iteration of the loop in
`_get_average_requests_duration` (lines 181-187): when the client has at
least one sample, set `grown` when the oldest sample is at least
`perfomance_window` (`W`) old, and store the 3-decimal-rounded mean of the
samples in `avg_duration`. -/
def updateClientAvg (W now : ℚ) (info : ClientInfo) : ClientInfo :=
  if info.request_durations.length > 0 then
    { (if minKey info.request_durations ≤ now - W then { info with grown := true } else info) with
      avg_duration := round3 (sumVals info.request_durations / (info.request_durations.length : ℚ)) }
  else info

/-- The value appended to `req_durations` for one client (lines 182-186):
`some` of the rounded mean when the client has samples, else nothing. -/
def clientAvgValue (info : ClientInfo) : Option ℚ :=
  if info.request_durations.length > 0 then
    some (round3 (sumVals info.request_durations / (info.request_durations.length : ℚ)))
  else none

/-- The `req_durations` list collected by `_get_average_requests_duration`,
in iteration order of the health map. -/
def watcher_values (m : HealthMap) : List ℚ := m.filterMap fun ci => clientAvgValue ci.2

/-- The first return value of `_get_average_requests_duration`
(lines 189-192): the rounded mean of the per-client means, 0 when empty. -/
def global_avg_duration (m : HealthMap) : ℚ :=
  if (watcher_values m).length > 0 then
    round3 ((watcher_values m).sum / ((watcher_values m).length : ℚ))
  else 0

/-- `_get_average_requests_duration` (lines 177-192): returns the global
rounded mean, the list of per-client means, and the health map with
`grown` / `avg_duration` updated per client. -/
def _get_average_requests_duration (W now : ℚ) (m : HealthMap) :
    ℚ × List ℚ × HealthMap :=
  (global_avg_duration m, watcher_values m,
   m.map fun ci => (ci.1, updateClientAvg W now ci.2))

/-- The prune of one client's window in `perfomance_watcher` (lines 313-322):
delete every sample whose timestamp is `< now - (perfomance_window +
watch_interval)`; equivalently keep the ones that are not. -/
def pruneDurations (cutoff : ℚ) (info : ClientInfo) : ClientInfo :=
  { info with request_durations := info.request_durations.filter fun kv => !decide (kv.1 < cutoff) }

/-- `_calculate_st_dev` (lines 285-293): population standard deviation of the
per-client means, rounded to 3 decimals; 0 on the empty list. -/
noncomputable def _calculate_st_dev (values : List ℚ) : ℚ :=
  if values.length > 0 then
    round3R (Real.sqrt
      ((values.map fun x => ((x : ℝ) - (values.sum : ℝ) / (values.length : ℝ)) ^ 2).sum /
        ((values.map fun x => ((x : ℝ) - (values.sum : ℝ) / (values.length : ℝ)) ^ 2).length : ℝ)))
  else 0

/-- The `dev` computed by `perfomance_watcher` (line 332):
`round(st_dev + avg_duration, 3)` where `st_dev` and `avg_duration` are the
already-3-decimal-rounded standard deviation and global mean. -/
noncomputable def watcher_dev (m : HealthMap) : ℚ :=
  round3 (_calculate_st_dev (watcher_values m) + global_avg_duration m)

/-- The classification of one client in `_mark_bad_clients` (lines 295-309):
set `drop_cookies` when (`grown` and `avg_duration > dev`), or else when
(`avg_duration < dev` and `request_interval > 0`); otherwise unchanged. -/
def markBadOne (dev : ℚ) (info : ClientInfo) : ClientInfo :=
  if info.grown = true ∧ info.avg_duration > dev then { info with drop_cookies := true }
  else if info.avg_duration < dev ∧ info.request_interval > 0 then { info with drop_cookies := true }
  else info

/-- `_mark_bad_clients` applied across the health map. -/
def _mark_bad_clients (dev : ℚ) (m : HealthMap) : HealthMap :=
  m.map fun ci => (ci.1, markBadOne dev ci.2)

/-- The gauges logged at the end of `perfomance_watcher` (lines 334-342),
in the units of the `extra` dict: `REQUESTS_DEV = dev * 1000`,
`REQUESTS_MIN_AVG = min(values) * 1000`, `REQUESTS_MAX_AVG = max(values) * 1000`,
`REQUESTS_AVG = avg_duration * 1000` (all 0 when there are no values). -/
structure WatcherReport where
  requests_dev : ℚ
  requests_min_avg : ℚ
  requests_max_avg : ℚ
  requests_avg : ℚ
deriving DecidableEq, Repr

/-- One tick of `perfomance_watcher` (lines 311-343) on the health map,
given `perfomance_window = W`, `watch_interval = I` and the current time.
Order as in the source: first `_get_average_requests_duration` (means and
`grown` from the pre-prune windows), then the prune with cutoff
`now - (W + I)`, then `dev` and the report, then `_mark_bad_clients`. -/
noncomputable def perfomance_watcher (W I now : ℚ) (m : HealthMap) :
    WatcherReport × HealthMap :=
  ({ requests_dev := watcher_dev m * 1000,
     requests_min_avg := if (watcher_values m).length > 0 then listMin (watcher_values m) * 1000 else 0,
     requests_max_avg := if (watcher_values m).length > 0 then listMax (watcher_values m) * 1000 else 0,
     requests_avg := global_avg_duration m * 1000 },
   _mark_bad_clients (watcher_dev m)
     (((_get_average_requests_duration W now m).2.2).map
        fun ci => (ci.1, pruneDurations (now - (W + I)) ci.2)))

/-- The scale decision of one `queues_controller` iteration (lines 197-219).
`queue_size` is `resource_items_queue_size` (an integer; `-1` means the
queue was constructed unbounded). The source's `elif` branch only acts when
the pool is above `workers_min`, which the conjunction models. -/
inductive ScaleAction where
  | scaleUp
  | scaleDown
  | noAction
deriving DecidableEq, Repr

/-- Decision logic of `queues_controller` (lines 199-219): scale up when the
main pool has a free slot and `qsize > (float(queue_size) / 100) *
workers_inc_threshold`; otherwise scale down when `qsize <
(float(queue_size) / 100) * workers_dec_threshold` and the pool is above
`workers_min`; otherwise do nothing. -/
def queues_controller_action (free_count qsize : ℕ) (queue_size : ℤ)
    (inc_threshold dec_threshold : ℚ) (pool_len workers_min : ℕ) : ScaleAction :=
  if free_count > 0 ∧ (qsize : ℚ) > ((queue_size : ℚ) / 100) * inc_threshold then .scaleUp
  else if (qsize : ℚ) < ((queue_size : ℚ) / 100) * dec_threshold ∧ pool_len > workers_min then
    .scaleDown
  else .noAction

/-- The logged main-queue fill (lines 220-221):
`round(qsize / (float(size) / 100), 2)`. -/
def main_queue_filled (qsize : ℕ) (queue_size : ℤ) : ℚ :=
  round2 ((qsize : ℚ) / ((queue_size : ℚ) / 100))

/-- The logged retry-queue fill (lines 223-224):
`round(qsize / float(size) / 100, 2)`. -/
def retry_queue_filled (qsize : ℕ) (queue_size : ℤ) : ℚ :=
  round2 ((qsize : ℚ) / (queue_size : ℚ) / 100)

/-- The `api_client_dict` built in `create_api_client` (lines 134-139);
the session object itself is opaque and omitted. -/
structure ApiClientDict where
  id : String
  request_interval : ℚ
  not_actual_count : ℕ
deriving DecidableEq, Repr

/-- The health entry created in `create_api_client` (lines 140-145). -/
def initialClientInfo : ClientInfo :=
  { drop_cookies := false, request_durations := [], request_interval := 0, avg_duration := 0 }

/-- The`api_clients_queue` (client pool, FIFO) together with
`api_clients_info` (health map). -/
structure PoolState where
  api_clients_queue : List ApiClientDict
  api_clients_info : HealthMap
deriving DecidableEq, Repr

/-- The success path of `create_api_client` (lines 126-147): the health
entry is stored under the fresh id and the client dict is put on the
queue, within the same un-yielding step. -/
def create_api_client_success (client_id : String) (st : PoolState) : PoolState :=
  { api_clients_queue :=
      st.api_clients_queue ++ [{ id := client_id, request_interval := 0, not_actual_count := 0 }],
    api_clients_info := st.api_clients_info ++ [(client_id, initialClientInfo)] }

/-- The sleeps performed by `create_api_client` (lines 148-159) when the
first `failures` construction attempts fail: `timeout` starts at `0.1` and
is doubled before every sleep, so the sleeps are `0.2, 0.4, ...`. -/
def createSleepsAux (timeout : ℚ) : ℕ → List ℚ
  | 0 => []
  | Nat.succ n => (timeout * 2) :: createSleepsAux (timeout * 2) n

/-- `create_api_client` sleeps for a run with `failures` consecutive
failures before the first success (line 123 initialises `timeout = 0.1`). -/
def create_api_client_sleeps (failures : ℕ) : List ℚ :=
  createSleepsAux (1 / 10) failures

/-- The scale-down branch of `queues_controller` (lines 214-218): pop one
client dict from the pool queue and delete its health entry.  The blocking
`get()` on an empty queue never returns within the tick; that case is
modelled as leaving the state unchanged. -/
def scale_down_retire (st : PoolState) : PoolState :=
  match st.api_clients_queue with
  | [] => st
  | d :: rest =>
    { api_clients_queue := rest,
      api_clients_info := st.api_clients_info.filter fun kv => !decide (kv.1 = d.id) }

/-- Result of `urlparse` on the configured `resources_api_server`
(an external library call; only the `scheme` / `netloc` fields are read). -/
structure ParsedUrl where
  scheme : String
  netloc : String

/-- The slice of the `main` config that startup validation reads. -/
structure BridgeConfig where
  resources_api_server : Option String
  up_wait_sleep : Option ℚ

/-- The three `DataBridgeConfigError` raises of `BasicDataBridge.__init__`
(lines 58-61 and 87-92). -/
inductive ConfigError where
  | upWaitSleepTooSmall
  | invalidResourcesApiServerUrl
  | emptyOrMissingResourcesApiServer
deriving DecidableEq, Repr

/-- The `resources_api_server` check (lines 87-92): a present, nonempty host
is parsed and rejected when both scheme and netloc are empty; an empty or
missing host raises the empty-or-missing error. -/
def check_api_host (urlparse : String → ParsedUrl) (api_host : Option String) :
    Except ConfigError Unit :=
  match api_host with
  | some h =>
    if h ≠ "" then
      if (urlparse h).scheme = "" ∧ (urlparse h).netloc = "" then
        .error .invalidResourcesApiServerUrl
      else .ok ()
    else .error .emptyOrMissingResourcesApiServer
  | none => .error .emptyOrMissingResourcesApiServer

/-- Startup validation of `BasicDataBridge.__init__` in source order: the
`up_wait_sleep` check (lines 57-61) runs before the URL check (lines 87-92). -/
def bridge_init_validate (urlparse : String → ParsedUrl) (cfg : BridgeConfig) :
    Except ConfigError Unit :=
  match cfg.up_wait_sleep with
  | some u =>
    if u < 30 then .error .upWaitSleepTooSmall
    else check_api_host urlparse cfg.resources_api_server
  | none => check_api_host urlparse cfg.resources_api_server

/-- `retrievers_params.up_wait_sleep` present and below 30 (lines 58-59). -/
def sleepTooSmall (cfg : BridgeConfig) : Prop :=
  ∃ u, cfg.up_wait_sleep = some u ∧ u < 30

/-- `resources_api_server` missing or the empty string (lines 87, 91-92). -/
def apiServerMissing (cfg : BridgeConfig) : Prop :=
  cfg.resources_api_server = none ∨ cfg.resources_api_server = some ""

/-- A present, nonempty `resources_api_server` that parses with neither
scheme nor netloc (lines 88-90). -/
def apiServerUrlInvalid (urlparse : String → ParsedUrl) (cfg : BridgeConfig) : Prop :=
  ∃ h, cfg.resources_api_server = some h ∧ h ≠ ""
    ∧ (urlparse h).scheme = "" ∧ (urlparse h).netloc = ""

/-- A parse stub standing for `urlparse` in the witness. -/
def urlparse0 : String → ParsedUrl := fun _ => ⟨"", ""⟩

/-- The claimed invariant: the pool queue's client ids coincide, in order,
with the health map's keys, and the keys are distinct (ids are fresh
uuid4 hex values). -/
def poolHealthConsistent (st : PoolState) : Prop :=
  st.api_clients_queue.map ApiClientDict.id = st.api_clients_info.map Prod.fst
  ∧ (st.api_clients_info.map Prod.fst).Nodup

/-- A one-client pool state for the C6 witness. -/
def c6state : PoolState :=
  { api_clients_queue := [{ id := "x", request_interval := 0, not_actual_count := 0 }],
    api_clients_info := [("x", initialClientInfo)] }

/-- The `dev` described by the spec sentence behind C1, for comparison with
the source's `watcher_dev`: `dev = round(std + avg, 3)` where `avg` is the
(unrounded) mean of the per-client means and `std = sqrt(mean((v - avg)^2))`
— a single final rounding, without the source's intermediate roundings of
`std` and of the global mean. -/
noncomputable def spec_dev (values : List ℚ) : ℚ :=
  round3R (Real.sqrt
      ((values.map fun x => ((x : ℝ) - (values.sum : ℝ) / (values.length : ℝ)) ^ 2).sum /
        ((values.length : ℝ)))
    + (values.sum : ℝ) / (values.length : ℝ))

/-- C1 counterexample client: one full-window sample of 2 ms. -/
def c1info_a : ClientInfo :=
  { drop_cookies := false, request_durations := [(85, 1/500)], request_interval := 0,
    avg_duration := 0 }

/-- C1 counterexample client: one fresh sample of 1 ms. -/
def c1info_b : ClientInfo :=
  { drop_cookies := false, request_durations := [(95, 1/1000)], request_interval := 0,
    avg_duration := 0 }

/-- C1 counterexample client: one fresh sample of 0 ms. -/
def c1info_c : ClientInfo :=
  { drop_cookies := false, request_durations := [(95, 0)], request_interval := 0,
    avg_duration := 0 }

/-- The C1 counterexample health map: per-client means 2, 1, 0, 0, 0 ms. -/
def c1state : HealthMap :=
  [("a", c1info_a), ("b", c1info_b), ("c", c1info_c), ("d", c1info_c), ("e", c1info_c)]

/-- C1 witness client: a single fresh 1-second sample. -/
def c1winfo : ClientInfo :=
  { drop_cookies := false, request_durations := [(95, 1)], request_interval := 0,
    avg_duration := 0 }

/-- The C1 witness health map. -/
def c1wstate : HealthMap := [("w1", c1winfo)]

/-- C2 counterexample client: one sample (at time 80) old enough to be
pruned by the tick and one fresh sample (at time 100). -/
def c2info : ClientInfo :=
  { drop_cookies := false, request_durations := [(80, 10), (100, 0)], request_interval := 0,
    avg_duration := 0 }

/-- The C2 counterexample health map. -/
def c2state : HealthMap := [("a", c2info)]

/-- C10 scenario client: empty sample window but stale `grown = true` and
stale `avg_duration = 10` from earlier ticks. -/
def c10info : ClientInfo :=
  { drop_cookies := false, request_durations := [], request_interval := 0,
    avg_duration := 10, grown := true }

/-- The C10 scenario health map. -/
def c10state : HealthMap := [("a", c10info)]

/-! ### Queues-controller claims -/

/-- C4: the retry-queue fill logged by `queues_controller` is
`round(retry_qsize / (100 * retry_capacity), 2)` — it divides by
`100 * capacity` where the main-queue formula divides by `capacity / 100`,
so the unrounded retry value is 10000 times smaller than the unrounded
main-queue value at the same size and capacity. -/
theorem C4_retry_fill_formula (qsize : ℕ) (queue_size : ℤ) :
    retry_queue_filled qsize queue_size = round2 ((qsize : ℚ) / (100 * (queue_size : ℚ)))
    ∧ main_queue_filled qsize queue_size = round2 ((qsize : ℚ) / ((queue_size : ℚ) / 100))
    ∧ ((qsize : ℚ) / (100 * (queue_size : ℚ))) * 10000 = (qsize : ℚ) / ((queue_size : ℚ) / 100) := by
  refine ⟨?_, rfl, ?_⟩
  · unfold retry_queue_filled
    rw [div_div, mul_comm]
  · by_cases hc : (queue_size : ℚ) = 0
    · simp [hc]
    · field_simp
      ring

/-- C7 (stated for the shared threshold value `thr`): when the main queue's
size sits exactly at `(queue_size / 100) * thr` and both thresholds equal
`thr`, neither the scale-up nor the scale-down branch of
`queues_controller` fires. -/
theorem C7_equal_threshold_steady (free_count qsize : ℕ) (queue_size : ℤ)
    (thr : ℚ) (pool_len workers_min : ℕ)
    (h : (qsize : ℚ) = ((queue_size : ℚ) / 100) * thr) :
    queues_controller_action free_count qsize queue_size thr thr pool_len workers_min
      = ScaleAction.noAction := by
  simp [queues_controller_action, ← h]

/-- Witness for C7 at capacity 100, thresholds 50, queue size 50. -/
theorem C7_witness :
    ((50 : ℕ) : ℚ) = (((100 : ℤ) : ℚ) / 100) * 50
    ∧ queues_controller_action 1 50 100 50 50 5 1 = ScaleAction.noAction :=
  ⟨by norm_num, C7_equal_threshold_steady 1 50 100 50 5 1 (by norm_num)⟩

/-- C9 (amended): with `resource_items_queue_size = -1` and a strictly
positive `workers_inc_threshold`, every `queues_controller` iteration with a
free main-pool slot takes the scale-up branch, whatever the queue size,
because the comparison bound `(float(-1) / 100) * workers_inc_threshold` is
negative while `qsize()` is nonnegative. -/
theorem C9_unbounded_scale_up (free_count qsize : ℕ) (inc_threshold dec_threshold : ℚ)
    (pool_len workers_min : ℕ) (hfree : 0 < free_count) (hinc : 0 < inc_threshold) :
    queues_controller_action free_count qsize (-1) inc_threshold dec_threshold pool_len workers_min
      = ScaleAction.scaleUp := by
  unfold queues_controller_action
  rw [if_pos]
  refine ⟨hfree, ?_⟩
  push_cast
  have hq : (0 : ℚ) ≤ (qsize : ℚ) := Nat.cast_nonneg qsize
  nlinarith

/-- Counterexample to C9 as stated: with `workers_inc_threshold = 0` the
bound is not negative, and at queue size 0 the scale-up branch does not
fire even though a free slot exists. -/
theorem C9_counterexample :
    queues_controller_action 1 0 (-1) 0 0 1 0 ≠ ScaleAction.scaleUp := by
  simp [queues_controller_action]

/-- Witness for C9: a free slot, threshold 50, unbounded queue of size 7. -/
theorem C9_witness :
    0 < 1 ∧ (0 : ℚ) < 50
    ∧ queues_controller_action 1 7 (-1) 50 50 3 1 = ScaleAction.scaleUp :=
  ⟨by norm_num, by norm_num, C9_unbounded_scale_up 1 7 50 50 3 1 (by norm_num) (by norm_num)⟩

/-! ### API-client creation claims -/

/-- The sleeps of `create_api_client` in closed form: the sleep after the
`k`-th consecutive failure (0-based `k` here) is `0.1 * 2 ^ (k + 1)`. -/
theorem createSleepsAux_eq (t : ℚ) (n : ℕ) :
    createSleepsAux t n = (List.range n).map fun k => t * 2 ^ (k + 1) := by
  induction n generalizing t with
  | zero => rfl
  | succ n ih =>
    rw [createSleepsAux, ih, List.range_succ_eq_map]
    simp only [List.map_cons, List.map_map, Function.comp, pow_succ, pow_zero, one_mul]
    refine congrArg (List.cons _) ?_
    apply List.map_congr_left
    intro k _
    simp only [Function.comp_apply, pow_succ]
    ring

/-- C5 (amended): `create_api_client` retries construction forever; the
backoff variable starts at `0.1` and is doubled before every sleep, so the
sleep after the `(k+1)`-th consecutive failure is `0.1 * 2 ^ (k + 1)` (the
first sleep is `0.2`), with no cap; on success the client dict is put on the
pool queue and a health entry with `drop_cookies = false`, empty
`request_durations`, `request_interval = 0` and `avg_duration = 0` is stored
under its id. -/
theorem C5_create_backoff (n : ℕ) (client_id : String) (st : PoolState) :
    create_api_client_sleeps n = (List.range n).map (fun k => (1 / 10 : ℚ) * 2 ^ (k + 1))
    ∧ (create_api_client_success client_id st).api_clients_queue
        = st.api_clients_queue ++ [{ id := client_id, request_interval := 0, not_actual_count := 0 }]
    ∧ (create_api_client_success client_id st).api_clients_info
        = st.api_clients_info ++ [(client_id, initialClientInfo)]
    ∧ initialClientInfo.drop_cookies = false
    ∧ initialClientInfo.request_durations = []
    ∧ initialClientInfo.request_interval = 0
    ∧ initialClientInfo.avg_duration = 0 :=
  ⟨createSleepsAux_eq (1 / 10) n, rfl, rfl, rfl, rfl, rfl, rfl⟩

/-- Counterexample to C5 as stated: after a single failed attempt the one
sleep performed is `0.2` seconds, not the claimed starting value `0.1`. -/
theorem C5_counterexample :
    create_api_client_sleeps 1 = [1 / 5] ∧ ((1 : ℚ) / 5) ≠ 1 / 10 := by
  refine ⟨?_, by norm_num⟩
  norm_num [create_api_client_sleeps, createSleepsAux]

/-! ### Startup-validation claim -/

/-- C3: startup validation succeeds exactly when none of the three config
faults is present; an empty or missing `resources_api_server` (with a valid
`up_wait_sleep`) yields the empty-or-missing error; `up_wait_sleep = 29`
always fails with the up-wait-sleep error.  The validation's `Except` result
is the only error channel of the modelled startup path. -/
theorem C3_config_validation (urlparse : String → ParsedUrl) (cfg : BridgeConfig) :
    (bridge_init_validate urlparse cfg = .ok ()
      ↔ ¬ sleepTooSmall cfg ∧ ¬ apiServerMissing cfg ∧ ¬ apiServerUrlInvalid urlparse cfg)
    ∧ (apiServerMissing cfg → ¬ sleepTooSmall cfg →
        bridge_init_validate urlparse cfg = .error .emptyOrMissingResourcesApiServer)
    ∧ (cfg.up_wait_sleep = some 29 →
        bridge_init_validate urlparse cfg = .error .upWaitSleepTooSmall) := by
  obtain ⟨srv, up⟩ := cfg
  have hcheck : ∀ hup : ¬ sleepTooSmall ⟨srv, up⟩,
      (check_api_host urlparse srv = .ok ()
        ↔ ¬ apiServerMissing ⟨srv, up⟩ ∧ ¬ apiServerUrlInvalid urlparse ⟨srv, up⟩)
      ∧ (apiServerMissing ⟨srv, up⟩ →
          check_api_host urlparse srv = .error .emptyOrMissingResourcesApiServer) := by
    intro _
    rcases srv with _ | h
    · simp [check_api_host, apiServerMissing, apiServerUrlInvalid]
    · by_cases hh : h = ""
      · subst hh
        simp [check_api_host, apiServerMissing, apiServerUrlInvalid]
      · by_cases hu : (urlparse h).scheme = "" ∧ (urlparse h).netloc = ""
        · simp [check_api_host, apiServerMissing, apiServerUrlInvalid, hh, hu]
        · simp [check_api_host, apiServerMissing, apiServerUrlInvalid, hh, hu]
  rcases up with _ | u
  · have hup : ¬ sleepTooSmall ⟨srv, none⟩ := by simp [sleepTooSmall]
    refine ⟨?_, fun hm _ => ?_, by simp⟩
    · rw [show bridge_init_validate urlparse ⟨srv, none⟩ = check_api_host urlparse srv from rfl]
      simpa [hup] using (hcheck hup).1
    · exact (hcheck hup).2 hm
  · by_cases h30 : u < 30
    · have hsl : sleepTooSmall ⟨srv, some u⟩ := ⟨u, rfl, h30⟩
      refine ⟨?_, fun _ hns => absurd hsl hns, fun _ => ?_⟩
      · simp only [bridge_init_validate, if_pos h30]
        simp [hsl]
      · simp only [bridge_init_validate, if_pos h30]
    · have hup : ¬ sleepTooSmall ⟨srv, some u⟩ := by
        rintro ⟨v, hv, hlt⟩
        rw [Option.some.injEq] at hv
        exact h30 (hv ▸ hlt)
      refine ⟨?_, fun hm _ => ?_, fun h29 => ?_⟩
      · rw [show bridge_init_validate urlparse ⟨srv, some u⟩ = check_api_host urlparse srv from by
          simp [bridge_init_validate, h30]]
        simpa [hup] using (hcheck hup).1
      · rw [show bridge_init_validate urlparse ⟨srv, some u⟩ = check_api_host urlparse srv from by
          simp [bridge_init_validate, h30]]
        exact (hcheck hup).2 hm
      · rw [Option.some.injEq] at h29
        exact absurd (by rw [h29]; norm_num) h30

/-- Witness for C3: `up_wait_sleep = 29` fails with the up-wait-sleep error,
and an empty `resources_api_server` (with valid sleep) fails with the
empty-or-missing error. -/
theorem C3_witness :
    bridge_init_validate urlparse0 ⟨some "", some 29⟩
      = Except.error ConfigError.upWaitSleepTooSmall
    ∧ bridge_init_validate urlparse0 ⟨some "", some 30⟩
      = Except.error ConfigError.emptyOrMissingResourcesApiServer :=
  ⟨(C3_config_validation urlparse0 ⟨some "", some 29⟩).2.2 rfl,
   (C3_config_validation urlparse0 ⟨some "", some 30⟩).2.1 (Or.inr rfl)
     (by rintro ⟨u, hu, hlt⟩; rw [Option.some.injEq] at hu; subst hu; norm_num at hlt)⟩

/-! ### Pool/health-map invariant claim -/

/-- Projecting the keys of a filtered health map. -/
theorem map_fst_filter_ne (m : HealthMap) (x : String) :
    (m.filter fun kv => !decide (kv.1 = x)).map Prod.fst
      = (m.map Prod.fst).filter fun k => !decide (k = x) := by
  induction m with
  | nil => rfl
  | cons p t ih =>
    by_cases hp : p.1 = x
    · simp [List.filter_cons, hp, ih]
    · simp [List.filter_cons, hp, ih]

/-- C6: client creation (`create_api_client`, lines 140-146) and the
scale-down removal (`queues_controller`, lines 217-218) both preserve the
pool/health correspondence, and under it every pooled client id is a health
key and every health key is the id of a pooled client. -/
theorem C6_pool_health_sync (st : PoolState) (client_id : String)
    (hinv : poolHealthConsistent st)
    (hfresh : client_id ∉ st.api_clients_info.map Prod.fst) :
    poolHealthConsistent (create_api_client_success client_id st)
    ∧ poolHealthConsistent (scale_down_retire st)
    ∧ (∀ d ∈ st.api_clients_queue, d.id ∈ st.api_clients_info.map Prod.fst)
    ∧ (∀ k ∈ st.api_clients_info.map Prod.fst, ∃ d ∈ st.api_clients_queue, d.id = k) := by
  obtain ⟨heq, hnd⟩ := hinv
  have hmem : ∀ d ∈ st.api_clients_queue, d.id ∈ st.api_clients_info.map Prod.fst := by
    intro d hd
    rw [← heq]
    exact List.mem_map_of_mem _ hd
  have hmem' : ∀ k ∈ st.api_clients_info.map Prod.fst, ∃ d ∈ st.api_clients_queue, d.id = k := by
    intro k hk
    rw [← heq] at hk
    obtain ⟨d, hd, rfl⟩ := List.mem_map.1 hk
    exact ⟨d, hd, rfl⟩
  refine ⟨⟨?_, ?_⟩, ?_, hmem, hmem'⟩
  · simp [create_api_client_success, heq]
  · simp only [create_api_client_success, List.map_append, List.map_cons, List.map_nil]
    rw [List.nodup_append]
    refine ⟨hnd, List.nodup_singleton _, ?_⟩
    intro x hx hx'
    rw [List.mem_singleton] at hx'
    subst hx'
    exact hfresh hx
  · cases hq : st.api_clients_queue with
    | nil =>
      simp only [scale_down_retire, hq]
      exact ⟨heq, hnd⟩
    | cons d rest =>
      have hid : st.api_clients_info.map Prod.fst = d.id :: rest.map ApiClientDict.id := by
        rw [← heq, hq, List.map_cons]
      have hnotin : d.id ∉ rest.map ApiClientDict.id := by
        rw [hid] at hnd
        exact (List.nodup_cons.1 hnd).1
      have hfil : (st.api_clients_info.filter fun kv => !decide (kv.1 = d.id)).map Prod.fst
          = rest.map ApiClientDict.id := by
        rw [map_fst_filter_ne, hid, List.filter_cons, if_neg (by simp)]
        apply List.filter_eq_self.mpr
        intro a ha
        simp only [Bool.not_eq_true', decide_eq_false_iff_not]
        rintro rfl
        exact hnotin ha
      simp only [scale_down_retire, hq]
      constructor
      · exact hfil.symm
      · rw [hfil]
        rw [hid] at hnd
        exact (List.nodup_cons.1 hnd).2

/-- Witness for C6 on a concrete one-client state and a fresh id. -/
theorem C6_witness :
    poolHealthConsistent (create_api_client_success "y" c6state)
    ∧ poolHealthConsistent (scale_down_retire c6state)
    ∧ (∀ d ∈ c6state.api_clients_queue, d.id ∈ c6state.api_clients_info.map Prod.fst)
    ∧ (∀ k ∈ c6state.api_clients_info.map Prod.fst, ∃ d ∈ c6state.api_clients_queue, d.id = k) :=
  C6_pool_health_sync c6state "y" ⟨rfl, by decide⟩ (by decide)

/-! ### Performance-watcher structure lemmas -/

theorem markBadOne_durations (dev : ℚ) (i : ClientInfo) :
    (markBadOne dev i).request_durations = i.request_durations := by
  unfold markBadOne
  split_ifs <;> rfl

theorem markBadOne_avg (dev : ℚ) (i : ClientInfo) :
    (markBadOne dev i).avg_duration = i.avg_duration := by
  unfold markBadOne
  split_ifs <;> rfl

theorem markBadOne_grown (dev : ℚ) (i : ClientInfo) :
    (markBadOne dev i).grown = i.grown := by
  unfold markBadOne
  split_ifs <;> rfl

theorem markBadOne_interval (dev : ℚ) (i : ClientInfo) :
    (markBadOne dev i).request_interval = i.request_interval := by
  unfold markBadOne
  split_ifs <;> rfl

/-- The classification outcome of `_mark_bad_clients` for one client, in
closed form: the flag stays set once set, and is newly set exactly by the
two conditions of the source's `if`/`elif`. -/
theorem markBadOne_drop (dev : ℚ) (i : ClientInfo) :
    (markBadOne dev i).drop_cookies
      = (i.drop_cookies
         || (i.grown && decide (i.avg_duration > dev))
         || (decide (i.avg_duration < dev) && decide (i.request_interval > 0))) := by
  unfold markBadOne
  split_ifs with h1 h2
  · simp [h1.1, h1.2]
  · simp [h2.1, h2.2]
  · push_neg at h1 h2
    have e1 : (i.grown && decide (i.avg_duration > dev)) = false := by
      cases hg : i.grown
      · simp
      · simp only [Bool.true_and]
        exact decide_eq_false (not_lt.mpr (h1 hg))
    have e2 : (decide (i.avg_duration < dev) && decide (i.request_interval > 0)) = false := by
      by_cases hlt : i.avg_duration < dev
      · rw [decide_eq_true hlt, Bool.true_and]
        exact decide_eq_false (not_lt.mpr (h2 hlt))
      · simp [hlt]
    rw [e1, e2]
    simp

theorem pruneDurations_durations (c : ℚ) (i : ClientInfo) :
    (pruneDurations c i).request_durations
      = i.request_durations.filter fun kv => !decide (kv.1 < c) := rfl

theorem pruneDurations_avg (c : ℚ) (i : ClientInfo) :
    (pruneDurations c i).avg_duration = i.avg_duration := rfl

theorem pruneDurations_grown (c : ℚ) (i : ClientInfo) :
    (pruneDurations c i).grown = i.grown := rfl

theorem pruneDurations_drop (c : ℚ) (i : ClientInfo) :
    (pruneDurations c i).drop_cookies = i.drop_cookies := rfl

theorem pruneDurations_interval (c : ℚ) (i : ClientInfo) :
    (pruneDurations c i).request_interval = i.request_interval := rfl

theorem updateClientAvg_durations (W now : ℚ) (i : ClientInfo) :
    (updateClientAvg W now i).request_durations = i.request_durations := by
  unfold updateClientAvg
  split_ifs <;> rfl

theorem updateClientAvg_drop (W now : ℚ) (i : ClientInfo) :
    (updateClientAvg W now i).drop_cookies = i.drop_cookies := by
  unfold updateClientAvg
  split_ifs <;> rfl

theorem updateClientAvg_interval (W now : ℚ) (i : ClientInfo) :
    (updateClientAvg W now i).request_interval = i.request_interval := by
  unfold updateClientAvg
  split_ifs <;> rfl

theorem updateClientAvg_grown_of_pos (W now : ℚ) (i : ClientInfo)
    (h : i.request_durations.length > 0) :
    (updateClientAvg W now i).grown
      = (i.grown || decide (minKey i.request_durations ≤ now - W)) := by
  unfold updateClientAvg
  rw [if_pos h]
  by_cases hm : minKey i.request_durations ≤ now - W
  · rw [if_pos hm]
    simp [hm]
  · rw [if_neg hm]
    simp [hm]

theorem updateClientAvg_avg_of_pos (W now : ℚ) (i : ClientInfo)
    (h : i.request_durations.length > 0) :
    (updateClientAvg W now i).avg_duration
      = round3 (sumVals i.request_durations / (i.request_durations.length : ℚ)) := by
  unfold updateClientAvg
  rw [if_pos h]

theorem updateClientAvg_of_empty (W now : ℚ) (i : ClientInfo)
    (h : i.request_durations = []) : updateClientAvg W now i = i := by
  simp [updateClientAvg, h]

theorem updateClientAvg_grown_mono (W now : ℚ) (i : ClientInfo)
    (hg : i.grown = true) : (updateClientAvg W now i).grown = true := by
  unfold updateClientAvg
  split_ifs <;> simp [hg]

/-- The health map after one watcher tick is the entrywise composite
`mark-bad ∘ prune ∘ update-avg`, with the tick's `dev`. -/
theorem perfomance_watcher_snd (W I now : ℚ) (m : HealthMap) :
    (perfomance_watcher W I now m).2
      = m.map fun ci => (ci.1,
          markBadOne (watcher_dev m)
            (pruneDurations (now - (W + I)) (updateClientAvg W now ci.2))) := by
  unfold perfomance_watcher _mark_bad_clients _get_average_requests_duration
  rw [List.map_map, List.map_map]
  rfl

/-- The gauges of one watcher tick, in terms of the tick's aggregates. -/
theorem perfomance_watcher_fst (W I now : ℚ) (m : HealthMap) :
    (perfomance_watcher W I now m).1
      = { requests_dev := watcher_dev m * 1000,
          requests_min_avg :=
            if (watcher_values m).length > 0 then listMin (watcher_values m) * 1000 else 0,
          requests_max_avg :=
            if (watcher_values m).length > 0 then listMax (watcher_values m) * 1000 else 0,
          requests_avg := global_avg_duration m * 1000 } := rfl

/-! ### Zero-samples claim -/

/-- C8: when no client has any recorded sample, a watcher tick reports all
four gauges as 0 (the source reaches this through the explicit empty-list
branches of `_get_average_requests_duration` and `_calculate_st_dev`, so no
division by zero is performed). -/
theorem C8_zero_samples (W I now : ℚ) (m : HealthMap)
    (h : ∀ p ∈ m, (p.2).request_durations = ([] : List (ℚ × ℚ))) :
    (perfomance_watcher W I now m).1
      = { requests_dev := 0, requests_min_avg := 0, requests_max_avg := 0,
          requests_avg := 0 } := by
  have hv : watcher_values m = [] := by
    apply List.filterMap_eq_nil_iff.mpr
    intro p hp
    simp [clientAvgValue, h p hp]
  have havg : global_avg_duration m = 0 := by
    simp [global_avg_duration, hv]
  have hst : _calculate_st_dev (watcher_values m) = 0 := by
    rw [hv]
    simp [_calculate_st_dev]
  have hdev : watcher_dev m = 0 := by
    rw [watcher_dev, hst, havg]
    simp [round3]
  rw [perfomance_watcher_fst, hdev, havg, hv]
  norm_num

/-- Witness for C8 on a one-client health map with an empty window. -/
theorem C8_witness :
    (∀ p ∈ ([("a", initialClientInfo)] : HealthMap),
      p.2.request_durations = ([] : List (ℚ × ℚ)))
    ∧ (perfomance_watcher 10 5 100 [("a", initialClientInfo)]).1
        = { requests_dev := 0, requests_min_avg := 0, requests_max_avg := 0,
            requests_avg := 0 } := by
  have h : ∀ p ∈ ([("a", initialClientInfo)] : HealthMap),
      p.2.request_durations = ([] : List (ℚ × ℚ)) := by
    rintro p hp
    rw [List.mem_singleton] at hp
    subst hp
    rfl
  exact ⟨h, C8_zero_samples 10 5 100 _ h⟩

/-! ### Stale-health claim -/

/-- C10: across one watcher tick, `grown` never reverts from `true`, and a
client whose window is empty keeps its previous `avg_duration` and `grown`;
moreover, on the concrete state `c10state` — a client with an empty window
but stale `grown = true` and stale `avg_duration = 10` — the tick sets the
client's `drop_cookies` even though it has no samples at all. -/
theorem C10_stale_flags (W I now : ℚ) (m : HealthMap) (p : String × ClientInfo)
    (hp : p ∈ m) :
    (∃ q ∈ (perfomance_watcher W I now m).2, q.1 = p.1
      ∧ (p.2.grown = true → q.2.grown = true)
      ∧ (p.2.request_durations = [] →
          q.2.avg_duration = p.2.avg_duration ∧ q.2.grown = p.2.grown))
    ∧ (∃ q ∈ (perfomance_watcher W I now c10state).2,
        q.2.request_durations = ([] : List (ℚ × ℚ)) ∧ q.2.drop_cookies = true) := by
  constructor
  · refine ⟨(p.1, markBadOne (watcher_dev m)
        (pruneDurations (now - (W + I)) (updateClientAvg W now p.2))), ?_, rfl, ?_, ?_⟩
    · rw [perfomance_watcher_snd]
      exact List.mem_map_of_mem _ hp
    · intro hg
      rw [markBadOne_grown, pruneDurations_grown]
      exact updateClientAvg_grown_mono W now p.2 hg
    · intro hd
      rw [markBadOne_avg, pruneDurations_avg, markBadOne_grown, pruneDurations_grown,
        updateClientAvg_of_empty W now p.2 hd]
      exact ⟨rfl, rfl⟩
  · have hv : watcher_values c10state = [] := by
      simp [watcher_values, c10state, c10info, clientAvgValue]
    have hdev : watcher_dev c10state = 0 := by
      simp [watcher_dev, hv, _calculate_st_dev, global_avg_duration, round3]
    refine ⟨("a", markBadOne (watcher_dev c10state)
        (pruneDurations (now - (W + I)) (updateClientAvg W now c10info))), ?_, ?_, ?_⟩
    · rw [perfomance_watcher_snd]
      have hmem : ("a", c10info) ∈ c10state := by simp [c10state]
      exact List.mem_map_of_mem _ hmem
    · rw [markBadOne_durations, pruneDurations_durations, updateClientAvg_durations]
      simp [c10info]
    · rw [markBadOne_drop, hdev, updateClientAvg_of_empty W now c10info rfl]
      simp [pruneDurations_grown, pruneDurations_avg, pruneDurations_drop, c10info]

/-- Witness for C10, at the `c10state` scenario itself. -/
theorem C10_witness :
    (∃ q ∈ (perfomance_watcher 10 5 100 c10state).2, q.1 = "a"
      ∧ (c10info.grown = true → q.2.grown = true)
      ∧ (c10info.request_durations = [] →
          q.2.avg_duration = c10info.avg_duration ∧ q.2.grown = c10info.grown))
    ∧ (∃ q ∈ (perfomance_watcher 10 5 100 c10state).2,
        q.2.request_durations = ([] : List (ℚ × ℚ)) ∧ q.2.drop_cookies = true) :=
  C10_stale_flags 10 5 100 c10state ("a", c10info) (by simp [c10state])

/-! ### Mean-versus-prune ordering claim -/

/-- C2 (amended): within one watcher tick the per-client mean step runs
before the prune, so `avg_duration` is the rounded mean of all samples
present at the start of the tick — including any the same tick then prunes —
and `grown` becomes true exactly when the client was already grown or the
oldest pre-prune sample is at least `perfomance_window` old; the prune then
keeps exactly the samples not older than `now - (perfomance_window +
watch_interval)`. -/
theorem C2_mean_before_prune (W I now : ℚ) (m : HealthMap) (p : String × ClientInfo)
    (hp : p ∈ m) :
    ∃ q ∈ (perfomance_watcher W I now m).2, q.1 = p.1
      ∧ q.2.request_durations
          = p.2.request_durations.filter (fun kv => !decide (kv.1 < now - (W + I)))
      ∧ (p.2.request_durations.length > 0 →
          q.2.avg_duration
            = round3 (sumVals p.2.request_durations / (p.2.request_durations.length : ℚ))
          ∧ q.2.grown = (p.2.grown || decide (minKey p.2.request_durations ≤ now - W))) := by
  refine ⟨(p.1, markBadOne (watcher_dev m)
      (pruneDurations (now - (W + I)) (updateClientAvg W now p.2))), ?_, rfl, ?_, ?_⟩
  · rw [perfomance_watcher_snd]
    exact List.mem_map_of_mem _ hp
  · rw [markBadOne_durations, pruneDurations_durations, updateClientAvg_durations]
  · intro hlen
    rw [markBadOne_avg, pruneDurations_avg, updateClientAvg_avg_of_pos W now p.2 hlen,
      markBadOne_grown, pruneDurations_grown, updateClientAvg_grown_of_pos W now p.2 hlen]
    exact ⟨rfl, rfl⟩

/-- Witness for C2 at the concrete state `c2state`. -/
theorem C2_witness :
    ∃ q ∈ (perfomance_watcher 10 5 100 c2state).2, q.1 = "a"
      ∧ q.2.request_durations
          = c2info.request_durations.filter (fun kv => !decide (kv.1 < 100 - (10 + 5)))
      ∧ (c2info.request_durations.length > 0 →
          q.2.avg_duration
            = round3 (sumVals c2info.request_durations / (c2info.request_durations.length : ℚ))
          ∧ q.2.grown = (c2info.grown || decide (minKey c2info.request_durations ≤ 100 - 10))) :=
  C2_mean_before_prune 10 5 100 c2state ("a", c2info) (by simp [c2state])

/-- Counterexample to C2 as stated: on `c2state` (samples at times 80 and
100 with durations 10 and 0; `perfomance_window = 10`, `watch_interval = 5`,
`now = 100`) the tick leaves `avg_duration = 5`, the mean over both
pre-prune samples, while the mean over the samples remaining after the
prune (only the one at time 100) is 0; and it leaves `grown = true` even
though the oldest remaining sample is younger than `perfomance_window`. -/
theorem C2_counterexample :
    (perfomance_watcher 10 5 100 c2state).2
      = [("a", { drop_cookies := false, request_durations := [((100 : ℚ), (0 : ℚ))],
                 request_interval := 0, avg_duration := 5, grown := true })]
    ∧ round3 (sumVals [((100 : ℚ), (0 : ℚ))]
        / (([((100 : ℚ), (0 : ℚ))] : List (ℚ × ℚ)).length : ℚ)) = 0
    ∧ ((5 : ℚ) ≠ 0)
    ∧ ¬ (minKey [((100 : ℚ), (0 : ℚ))] ≤ 100 - 10) := by
  have hv : watcher_values c2state = [5] := by
    simp only [watcher_values, c2state, c2info, clientAvgValue, sumVals,
      List.filterMap_cons, List.filterMap_nil]
    norm_num [round3, round_eq]
  have hst : _calculate_st_dev [(5 : ℚ)] = 0 := by
    simp only [_calculate_st_dev, round3R]
    norm_num [round_eq]
  have havg : global_avg_duration c2state = 5 := by
    simp only [global_avg_duration, hv]
    norm_num [round3, round_eq]
  have hdev : watcher_dev c2state = 5 := by
    rw [watcher_dev, hv, hst, havg]
    norm_num [round3, round_eq]
  have hupd : updateClientAvg 10 100 c2info
      = { drop_cookies := false, request_durations := [(80, 10), (100, 0)],
          request_interval := 0, avg_duration := 5, grown := true } := by
    simp only [updateClientAvg, c2info, minKey, sumVals]
    norm_num [round3, round_eq]
  have hfinal : markBadOne (watcher_dev c2state)
      (pruneDurations (100 - (10 + 5)) (updateClientAvg 10 100 c2info))
      = { drop_cookies := false, request_durations := [((100 : ℚ), (0 : ℚ))],
          request_interval := 0, avg_duration := 5, grown := true } := by
    rw [hdev, hupd]
    norm_num [pruneDurations, markBadOne, List.filter]
  refine ⟨?_, ?_, by norm_num, ?_⟩
  · rw [perfomance_watcher_snd]
    simp only [c2state, List.map_cons, List.map_nil]
    rw [show c2state = [("a", c2info)] from rfl] at hfinal
    rw [hfinal]
  · norm_num [sumVals, round3]
  · norm_num [minKey]

/-! ### Bad-client classification claim -/

/-- C1 (amended): each watcher tick sets a client's `drop_cookies` to
`previous ∨ (grown ∧ avg_duration > dev) ∨ (avg_duration < dev ∧
request_interval > 0)`, where `grown` and `avg_duration` are the values
after the tick's per-client update and `dev` is the source's
`round(round(std, 3) + round(avg, 3), 3)` — standard deviation and global
mean each rounded to 3 decimals before being summed and re-rounded
(`watcher_dev`), not the single rounding `round(std + avg, 3)` of the
claim. -/
theorem C1_classification (W I now : ℚ) (m : HealthMap) (p : String × ClientInfo)
    (hp : p ∈ m) :
    ∃ q ∈ (perfomance_watcher W I now m).2, q.1 = p.1
      ∧ q.2.drop_cookies
          = (p.2.drop_cookies
             || (q.2.grown && decide (q.2.avg_duration > watcher_dev m))
             || (decide (q.2.avg_duration < watcher_dev m)
                 && decide (q.2.request_interval > 0))) := by
  refine ⟨(p.1, markBadOne (watcher_dev m)
      (pruneDurations (now - (W + I)) (updateClientAvg W now p.2))), ?_, rfl, ?_⟩
  · rw [perfomance_watcher_snd]
    exact List.mem_map_of_mem _ hp
  · rw [markBadOne_drop, markBadOne_grown, markBadOne_avg, markBadOne_interval,
      pruneDurations_drop, updateClientAvg_drop]

/-- Witness for C1 on the one-client state `c1wstate`. -/
theorem C1_witness :
    ∃ q ∈ (perfomance_watcher 10 5 100 c1wstate).2, q.1 = "w1"
      ∧ q.2.drop_cookies
          = (c1winfo.drop_cookies
             || (q.2.grown && decide (q.2.avg_duration > watcher_dev c1wstate))
             || (decide (q.2.avg_duration < watcher_dev c1wstate)
                 && decide (q.2.request_interval > 0))) :=
  C1_classification 10 5 100 c1wstate ("w1", c1winfo) (by simp [c1wstate])

/-- Counterexample to C1 as stated: on `c1state` (per-client means 2, 1, 0,
0, 0 ms) the claim's `dev = round(std + avg, 3)` is `0.001` (std is exactly
`0.0008`, the mean `0.0006`), so for the grown client `"a"` with
`avg_duration = 0.002 > 0.001` the claim requires `drop_cookies = true`;
the code's double rounding gives `dev = round(0.001 + 0.001, 3) = 0.002`,
`0.002 > 0.002` fails, and the tick leaves `drop_cookies = false`. -/
theorem C1_counterexample :
    watcher_values c1state = [1/500, 1/1000, 0, 0, 0]
    ∧ spec_dev (watcher_values c1state) = 1/1000
    ∧ ∃ q ∈ (perfomance_watcher 10 5 100 c1state).2, q.1 = "a"
        ∧ q.2.grown = true
        ∧ q.2.avg_duration > spec_dev (watcher_values c1state)
        ∧ q.2.request_interval = 0
        ∧ q.2.drop_cookies = false := by
  have hv : watcher_values c1state = [1/500, 1/1000, 0, 0, 0] := by
    simp only [watcher_values, c1state, c1info_a, c1info_b, c1info_c, clientAvgValue,
      sumVals, List.filterMap_cons, List.filterMap_nil]
    norm_num [round3, round_eq]
  have hst : _calculate_st_dev [1/500, 1/1000, 0, 0, 0] = 1/1000 := by
    rw [_calculate_st_dev, if_pos (by norm_num)]
    norm_num [List.map_cons, List.map_nil, List.sum_cons, List.sum_nil,
      List.length_cons, List.length_nil]
    rw [show (1562500 : ℝ) = 1250 ^ 2 by norm_num, Real.sqrt_sq (by norm_num)]
    rw [round3R, round_eq]
    norm_num
  have hspec : spec_dev [1/500, 1/1000, 0, 0, 0] = 1/1000 := by
    rw [spec_dev]
    norm_num [List.map_cons, List.map_nil, List.sum_cons, List.sum_nil,
      List.length_cons, List.length_nil]
    rw [show (1562500 : ℝ) = 1250 ^ 2 by norm_num, Real.sqrt_sq (by norm_num)]
    rw [round3R, round_eq]
    norm_num
  have havg : global_avg_duration c1state = 1/1000 := by
    simp only [global_avg_duration, hv]
    rw [if_pos (by norm_num)]
    norm_num [List.sum_cons, List.sum_nil, List.length_cons, List.length_nil,
      round3, round_eq]
  have hdev : watcher_dev c1state = 1/500 := by
    rw [watcher_dev, hv, hst, havg]
    norm_num [round3, round_eq]
  have hupd : updateClientAvg 10 100 c1info_a
      = { drop_cookies := false, request_durations := [(85, 1/500)],
          request_interval := 0, avg_duration := 1/500, grown := true } := by
    simp only [updateClientAvg, c1info_a, minKey, sumVals]
    norm_num [round3, round_eq]
  have hfin : markBadOne (watcher_dev c1state)
      (pruneDurations (100 - (10 + 5)) (updateClientAvg 10 100 c1info_a))
      = { drop_cookies := false, request_durations := [(85, 1/500)],
          request_interval := 0, avg_duration := 1/500, grown := true } := by
    rw [hdev, hupd]
    norm_num [pruneDurations, markBadOne, List.filter]
  refine ⟨hv, by rw [hv, hspec], ?_⟩
  refine ⟨("a", markBadOne (watcher_dev c1state)
      (pruneDurations (100 - (10 + 5)) (updateClientAvg 10 100 c1info_a))), ?_, rfl,
      ?_, ?_, ?_, ?_⟩
  · rw [perfomance_watcher_snd]
    have hmem : ("a", c1info_a) ∈ c1state := by simp [c1state]
    exact List.mem_map_of_mem _ hmem
  · rw [hfin]
  · rw [hfin, hv, hspec]
    norm_num
  · rw [hfin]
  · rw [hfin]

end DataBridge
